import Mathlib

/-!
# Wandering agents with spatialised voices (`src/sound.js`)

A shallow embedding of the two stateful parts of `sound.js`:

* the body of the `for (let agent of agents)` loop of `animate()` (lines 97-115), the
  per-agent steering step, together with the construction of the agents (lines 70-86);
* `audiosetup()` (lines 133-190), which loads the patch and attaches one voice per agent.

Numbers are the elements of a linearly ordered field `α` and the square root used by
`Vector3.length` is passed explicitly, so every definition is an ordinary program; the
properties of the steering step are proved over `ℝ` with `Real.sqrt`.  The section on binary64
gives the same methods with every operation rounded as the code's numbers are, and is where a
property that holds in exact arithmetic only is shown to fail.  The `three.js` methods called
by the source
(`Vector3.addScaledVector`, `Vector3.normalize`, `Object3D.lookAt`, ...) are transcribed from
the library the file imports.  The outcome of every call that leaves the program
(`Vector3.randomDirection`, `Math.random`, `fetch`, `Response.json`, `RNBO.createDevice`)
is an argument of the function that makes the call.
-/

namespace Sound

/-! ## `THREE.Vector3` -/

/-- A `THREE.Vector3`: three coordinates. -/
structure Vector3 (α : Type) where
  x : α
  y : α
  z : α
  deriving DecidableEq, Repr

namespace Vector3

variable {α : Type} [LinearOrderedField α]

/-- The vector `new THREE.Vector3()`, and the value given by `v.set(0, 0, 0)`. -/
def origin : Vector3 α := ⟨0, 0, 0⟩

/-- `v.addScaledVector(w, s)`: `v.x += w.x * s`, and likewise for `y` and `z`. -/
def addScaledVector (v w : Vector3 α) (s : α) : Vector3 α :=
  ⟨v.x + w.x * s, v.y + w.y * s, v.z + w.z * s⟩

/-- `v.multiplyScalar(s)`: `v.x *= s`, and likewise for `y` and `z`. -/
def multiplyScalar (v : Vector3 α) (s : α) : Vector3 α :=
  ⟨v.x * s, v.y * s, v.z * s⟩

/-- `v.divideScalar(s)`, which is `v.multiplyScalar(1 / s)`. -/
def divideScalar (v : Vector3 α) (s : α) : Vector3 α :=
  v.multiplyScalar (1 / s)

/-- `v.lengthSq()`. -/
def lengthSq (v : Vector3 α) : α :=
  v.x * v.x + v.y * v.y + v.z * v.z

/-- `v.length()`, which is `Math.sqrt(x * x + y * y + z * z)`. -/
def length (sqrt : α → α) (v : Vector3 α) : α :=
  sqrt (v.x * v.x + v.y * v.y + v.z * v.z)

/-- `v.normalize()`, which is `v.divideScalar(v.length() || 1)`: a vector of length `0` is
divided by `1`. -/
def normalize (sqrt : α → α) (v : Vector3 α) : Vector3 α :=
  v.divideScalar (if v.length sqrt = 0 then 1 else v.length sqrt)

/-- `r.subVectors(a, b)`: the difference `a - b`. -/
def subVectors (a b : Vector3 α) : Vector3 α :=
  ⟨a.x - b.x, a.y - b.y, a.z - b.z⟩

/-- `r.crossVectors(a, b)`: the cross product `a × b`. -/
def crossVectors (a b : Vector3 α) : Vector3 α :=
  ⟨a.y * b.z - a.z * b.y, a.z * b.x - a.x * b.z, a.x * b.y - a.y * b.x⟩

end Vector3

/-! ## `THREE.Object3D` and the agents -/

/-- The value thrown by a failing call: its message. -/
abbrev Error := String

/-- The part of an RNBO device the program touches: the named parameters of its node
(`fmsound.node.parameters`), each with its current value. -/
structure Device where
  parameters : List (String × ℚ)
  deriving DecidableEq, Repr

/-- The part of a `THREE.PositionalAudio` that `audiosetup` writes: the node it plays, its
volume, and the `refDistance`, `rolloffFactor` and `panningModel` of its panner. -/
structure PositionalSound where
  source : Option Device
  volume : ℚ
  refDistance : ℚ
  rolloffFactor : ℚ
  panningModel : String
  deriving DecidableEq, Repr

/-- The part of a `THREE.Mesh` the program reads or writes: its `position`, its `up` vector,
the local `+z` axis (`forward`) of the rotation set by `lookAt`, and its children.  The mesh
is a child of the scene, which is never moved or turned, so its world position is its
`position` and its world rotation is its own. -/
structure Object3D (α : Type) where
  position : Vector3 α
  up : Vector3 α
  forward : Vector3 α
  children : List PositionalSound
  deriving DecidableEq, Repr

namespace Object3D

variable {α : Type} [LinearOrderedField α]

/-- The value of `new THREE.Mesh(geometry, material)`: at the origin, with `up` the default
`(0, 1, 0)`, unrotated, childless. -/
def new : Object3D α := ⟨Vector3.origin, ⟨0, 1, 0⟩, ⟨0, 0, 1⟩, []⟩

/-- `m.lookAt(target)` for an object that is neither camera nor light: `Matrix4.lookAt` is
called with the target as `eye` and the world position of `m` as `target`.  Its `z` axis is
`eye - target`, with `z.z = 1` when that has squared length `0`, normalised; when `up × z` has
squared length `0` (`up` and `z` are parallel) `z` is nudged by `0.0001`, along `x` if
`|up.z|` is `1` and along `z` otherwise, and normalised again.  That `z` is the third column
of the rotation the object is given. -/
def lookAt (sqrt : α → α) (m : Object3D α) (target : Vector3 α) : Object3D α :=
  let z := Vector3.subVectors target m.position
  let z := if z.lengthSq = 0 then { z with z := 1 } else z
  let z := z.normalize sqrt
  let x := Vector3.crossVectors m.up z
  let z :=
    if x.lengthSq = 0 then
      (if |m.up.z| = 1 then { z with x := z.x + 1 / 10000 }
        else { z with z := z.z + 1 / 10000 }).normalize sqrt
    else z
  { m with forward := z }

/-- `m.add(child)`. -/
def add (m : Object3D α) (child : PositionalSound) : Object3D α :=
  { m with children := m.children ++ [child] }

end Object3D

/-- An element of `agents` (lines 81-85). -/
structure Agent (α : Type) where
  position : Vector3 α
  velocity : Vector3 α
  mesh : Object3D α
  deriving DecidableEq, Repr

section steering

variable {α : Type} [LinearOrderedField α]

/-- One turn of the loop that fills `agents` (lines 72-85); `r1`, ..., `r4` are the values of
the four calls of `Math.random()`, in the order they are made. -/
def mkAgent (r1 r2 r3 r4 : α) : Agent α :=
  { position := ⟨r1 * 10 - 5, 0, r2 * 10 - 5⟩
    velocity := ⟨r3 - 1 / 2, 0, r4 - 1 / 2⟩
    mesh := Object3D.new }

/-- The vector `velocity + dir * (dt * 3)` of line 101, where `dir` is the sampled direction
`d` with its `y` set to `0` (lines 99-100). -/
def accumulated (dt : α) (d : Vector3 α) (a : Agent α) : Vector3 α :=
  a.velocity.addScaledVector { d with y := 0 } (dt * 3)

/-- The body of the loop over the agents in `animate()` (lines 98-114); `d` is the vector
left in `dir` by `dir.randomDirection()`. -/
def animateAgent (sqrt : α → α) (dt : α) (d : Vector3 α) (a : Agent α) : Agent α :=
  let dir : Vector3 α := { d with y := 0 }
  let velocity := (a.velocity.addScaledVector dir (dt * 3)).normalize sqrt
  let position := a.position.addScaledVector velocity dt
  let position := if position.length sqrt > 10 then Vector3.origin else position
  let mesh := a.mesh.lookAt sqrt position
  let mesh := { mesh with position := position }
  { position := position, velocity := velocity, mesh := mesh }

/-- The loop of lines 97-115 from the agent of index `i` on; `dirs j` is the direction sampled
for the agent of index `j`. -/
def animateFrom (sqrt : α → α) (dt : α) (dirs : Nat → Vector3 α) :
    Nat → List (Agent α) → List (Agent α)
  | _, [] => []
  | i, a :: as => animateAgent sqrt dt (dirs i) a :: animateFrom sqrt dt dirs (i + 1) as

/-- What `animate()` does to `agents` in one frame of delta `dt` (lines 96-115). -/
def animate (sqrt : α → α) (dt : α) (dirs : Nat → Vector3 α) (agents : List (Agent α)) :
    List (Agent α) :=
  animateFrom sqrt dt dirs 0 agents

/-- The steering steps of one agent over consecutive frames: each element of `frames` is the
frame delta and the direction sampled for the agent in that frame. -/
def run (sqrt : α → α) : List (α × Vector3 α) → Agent α → Agent α
  | [], a => a
  | f :: fs, a => run sqrt fs (animateAgent sqrt f.1 f.2 a)

end steering

/-! ## `audiosetup` -/

/-- `dev.node.parameters.get(name).value = value`: `get` gives `undefined` for a name the node
does not have, and setting a property of `undefined` throws a `TypeError`. -/
def Device.setValue (dev : Device) (name : String) (value : ℚ) : Except Error Device :=
  if dev.parameters.any (fun p => p.1 == name) then
    .ok ⟨dev.parameters.map fun p => if p.1 == name then (name, value) else p⟩
  else
    .error "TypeError: Cannot set properties of undefined (setting 'value')"

/-- Whether the node of `dev` has the four parameters `audiosetup` sets. -/
def Device.hasParameters (dev : Device) : Bool :=
  ["carrier", "ratio", "depth", "rate"].all fun name =>
    dev.parameters.any fun p => p.1 == name

/-- The value of `new THREE.PositionalAudio(listener)`: no source, the gain and the distance
settings a new gain node and a new panner have, and the panning model `'HRTF'` the
constructor gives its panner. -/
def PositionalSound.new : PositionalSound :=
  { source := none, volume := 1, refDistance := 1, rolloffFactor := 1,
    panningModel := "HRTF" }

/-- What `fetch` resolves to, as far as `audiosetup` reads it: the `status`, and the outcome
of `response.json()`, which throws when the body does not parse. -/
structure Response (P : Type) where
  status : Nat
  json : Except Error P

/-- How a call of `audiosetup()` ends: whether its promise is fulfilled or rejected (and with
what), the agents as it leaves them, and the number of calls of `RNBO.createDevice` made. -/
structure Outcome (α : Type) where
  result : Except Error Unit
  agents : List (Agent α)
  calls : Nat

section audiosetup

variable {α : Type} {P : Type}

/-- The object `errorContext` built in the `catch` block (lines 141-151): the error, and the
`header` and `description` that are set only when there is a response whose status is
outside `200..299`.  Nothing reads it. -/
def errorContext (response : Option (Response P)) (err : Error) :
    Error × Option (String × String) :=
  match response with
  | some r =>
    if r.status ≥ 300 ∨ r.status < 200 then
      (err, some ("Couldn't load patcher export bundle",
        "Check app.js to see what file it's trying to load. Currently it's" ++
        " trying to load \"fmbell.export.json\". If that doesn't" ++
        " match the name of the file you exported from RNBO, modify" ++
        " patchExportURL in app.js."))
    else (err, none)
  | none => (err, none)

/-- The `catch` block of lines 140-153: it builds `errorContext` and throws `err` again. -/
def rethrow (response : Option (Response P)) (err : Error) : Error :=
  (errorContext response err).1

/-- The body of the loop of lines 155-189 for the agent of index `i`: `createDevice i patcher`
is the outcome of that agent's call of `RNBO.createDevice`, and `random (4 * i + j)` the value
of its `j`-th call of `Math.random()`.  A throw leaves the agent as it was. -/
def attachVoice (createDevice : Nat → P → Except Error Device) (random : Nat → ℚ)
    (patcher : P) (i : Nat) (a : Agent α) : Except Error (Agent α) := do
  let fmsound ← createDevice i patcher
  let fmsound ← fmsound.setValue "carrier" (random (4 * i))
  let fmsound ← fmsound.setValue "ratio" (random (4 * i + 1))
  let fmsound ← fmsound.setValue "depth" (random (4 * i + 2))
  let fmsound ← fmsound.setValue "rate" (random (4 * i + 3))
  let sound := PositionalSound.new
  let sound := { sound with source := some fmsound }
  let sound := { sound with volume := 1 }
  let sound := { sound with refDistance := 1 / 5 }
  let sound := { sound with rolloffFactor := 2 }
  let sound := { sound with panningModel := "HRTF" }
  pure { a with mesh := a.mesh.add sound }

/-- The loop of lines 155-189 from the agent of index `i` on: the agents are taken in order,
each call is awaited before the next agent is looked at, and the first throw ends the
function, leaving the remaining agents untouched. -/
def attachVoices (createDevice : Nat → P → Except Error Device) (random : Nat → ℚ)
    (patcher : P) : Nat → List (Agent α) → Outcome α
  | _, [] => ⟨.ok (), [], 0⟩
  | i, a :: as =>
    match attachVoice createDevice random patcher i a with
    | .error err => ⟨.error err, a :: as, 1⟩
    | .ok a' =>
      let rest := attachVoices createDevice random patcher (i + 1) as
      ⟨rest.result, a' :: rest.agents, rest.calls + 1⟩

/-- The function `audiosetup()` (lines 133-190): `fetched` is what `fetch(patchExportURL)`
settles to (an error when it rejects). -/
def audiosetup (fetched : Except Error (Response P))
    (createDevice : Nat → P → Except Error Device) (random : Nat → ℚ)
    (agents : List (Agent α)) : Outcome α :=
  match fetched with
  | .error err => ⟨.error (rethrow (none : Option (Response P)) err), agents, 0⟩
  | .ok response =>
    match response.json with
    | .error err => ⟨.error (rethrow (some response) err), agents, 0⟩
    | .ok patcher => attachVoices createDevice random patcher 0 agents

end audiosetup

/-- The number of voices attached to the agents: the children of their meshes. -/
def voices {α : Type} (agents : List (Agent α)) : Nat :=
  (agents.map fun a => a.mesh.children.length).sum

/-! ## Concrete runs of `audiosetup` -/

/-- Ten agents, as the loop of lines 71-86 builds them, with rational coordinates. -/
def tenAgents : List (Agent ℚ) :=
  (List.range 10).map fun i => mkAgent (i / 10) (1 / 2) 1 (1 / 4)

/-- A device whose node has the four parameters `audiosetup` sets. -/
def bell : Device :=
  ⟨[("carrier", 0), ("ratio", 0), ("depth", 0), ("rate", 0)]⟩

/-- Outcomes of `RNBO.createDevice` in which the call for the agent of index `k` throws and the
call for every other agent gives `bell`. -/
def failsAt (k : Nat) (i : Nat) (_patcher : Unit) : Except Error Device :=
  if i = k then .error "createDevice failed" else .ok bell

/-! ## The same methods in binary64

JavaScript numbers are IEEE 754 binary64.  A finite binary64 number is a rational; an
arithmetic operation returns the binary64 number nearest to its exact result, the one with an
even last digit when two are equally near.  The definitions below are the methods above with
every operation rounded so, in the order the code performs them.  Overflow, the sign of zero
and `NaN` are outside this model. -/

namespace Binary64

/-- The power `2 ^ e` of two, for an integer `e`. -/
def pow2 (e : ℤ) : ℚ :=
  if 0 ≤ e then ((2 ^ e.toNat : ℕ) : ℚ) else 1 / ((2 ^ (-e).toNat : ℕ) : ℚ)

/-- The largest `e` below `2 ^ k` above the given `e` with `2 ^ e ≤ n`, bit by bit. -/
def log2From (n : ℕ) : ℕ → ℕ → ℕ
  | 0, e => e
  | k + 1, e => if 2 ^ (e + 2 ^ k) ≤ n then log2From n k (e + 2 ^ k) else log2From n k e

/-- The integer `e` with `2 ^ e ≤ a < 2 ^ (e + 1)`, for a rational `a > 0` whose numerator and
denominator are below `2 ^ 4096`. -/
def exponent (a : ℚ) : ℤ :=
  let e : ℤ := (log2From a.num.natAbs 12 0 : ℤ) - (log2From a.den 12 0 : ℤ)
  if pow2 e ≤ a then e else e - 1

/-- The unit in the last place of the binary64 numbers around `a > 0`: 52 binary places below
the leading one, and never below `2 ^ (-1074)`, the spacing of the subnormal numbers. -/
def ulp (a : ℚ) : ℚ :=
  pow2 (max (exponent a) (-1022) - 52)

/-- The integer nearest to `m ≥ 0`, the even one of the two when `m` is half way. -/
def nearestEven (m : ℚ) : ℤ :=
  let n := ⌊m⌋
  if m - n < 1 / 2 then n
  else if 1 / 2 < m - n then n + 1
  else if n % 2 = 0 then n else n + 1

/-- The binary64 number nearest to `q`, ties to even: what an arithmetic operation whose exact
result is `q` returns. -/
def round (q : ℚ) : ℚ :=
  if q = 0 then 0
  else if q < 0 then -(nearestEven (-q / ulp (-q)) * ulp (-q))
  else nearestEven (q / ulp q) * ulp q

/-- The largest `r` below `2 ^ k` above the given `r` with `r * r ≤ n`, bit by bit. -/
def isqrtFrom (n : ℕ) : ℕ → ℕ → ℕ
  | 0, r => r
  | k + 1, r =>
    if (r + 2 ^ k) * (r + 2 ^ k) ≤ n then isqrtFrom n k (r + 2 ^ k) else isqrtFrom n k r

/-- `Math.sqrt(q)` for `q ≥ 0`: the binary64 number nearest to the square root of `q`.  With
`u` the unit in the last place of the root, the root of `q / u ^ 2` lies between `2 ^ 52` and
`2 ^ 53`, and is rounded to the nearest integer `n'`. -/
def sqrt (q : ℚ) : ℚ :=
  if q ≤ 0 then 0
  else
    let u := pow2 (exponent q / 2 - 52)
    let t := q / (u * u)
    let n : ℚ := (isqrtFrom ⌊t⌋.toNat 64 0 : ℕ)
    let n' : ℚ :=
      if t < (n + 1 / 2) * (n + 1 / 2) then n
      else if (n + 1 / 2) * (n + 1 / 2) < t then n + 1
      else if (isqrtFrom ⌊t⌋.toNat 64 0) % 2 = 0 then n else n + 1
    n' * u

/-- The sum `a + b` of two binary64 numbers, as the code computes it. -/
def add (a b : ℚ) : ℚ := round (a + b)

/-- The difference `a - b` of two binary64 numbers, as the code computes it. -/
def sub (a b : ℚ) : ℚ := round (a - b)

/-- The product `a * b` of two binary64 numbers, as the code computes it. -/
def mul (a b : ℚ) : ℚ := round (a * b)

/-- The quotient `a / b` of two binary64 numbers, `b` not zero, as the code computes it. -/
def div (a b : ℚ) : ℚ := round (a / b)

/-- `v.addScaledVector(w, s)` in binary64. -/
def addScaledVector (v w : Vector3 ℚ) (s : ℚ) : Vector3 ℚ :=
  ⟨add v.x (mul w.x s), add v.y (mul w.y s), add v.z (mul w.z s)⟩

/-- `v.multiplyScalar(s)` in binary64. -/
def multiplyScalar (v : Vector3 ℚ) (s : ℚ) : Vector3 ℚ :=
  ⟨mul v.x s, mul v.y s, mul v.z s⟩

/-- `v.divideScalar(s)` in binary64, which is `v.multiplyScalar(1 / s)`. -/
def divideScalar (v : Vector3 ℚ) (s : ℚ) : Vector3 ℚ :=
  multiplyScalar v (div 1 s)

/-- `v.lengthSq()` in binary64. -/
def lengthSq (v : Vector3 ℚ) : ℚ :=
  add (add (mul v.x v.x) (mul v.y v.y)) (mul v.z v.z)

/-- `v.length()` in binary64. -/
def length (v : Vector3 ℚ) : ℚ :=
  sqrt (add (add (mul v.x v.x) (mul v.y v.y)) (mul v.z v.z))

/-- `v.normalize()` in binary64, which is `v.divideScalar(v.length() || 1)`. -/
def normalize (v : Vector3 ℚ) : Vector3 ℚ :=
  divideScalar v (if length v = 0 then 1 else length v)

/-- `r.subVectors(a, b)` in binary64. -/
def subVectors (a b : Vector3 ℚ) : Vector3 ℚ :=
  ⟨sub a.x b.x, sub a.y b.y, sub a.z b.z⟩

/-- `r.crossVectors(a, b)` in binary64. -/
def crossVectors (a b : Vector3 ℚ) : Vector3 ℚ :=
  ⟨sub (mul a.y b.z) (mul a.z b.y), sub (mul a.z b.x) (mul a.x b.z),
    sub (mul a.x b.y) (mul a.y b.x)⟩

/-- `m.lookAt(target)` in binary64, step for step as `Object3D.lookAt`; `0.0001` is the
binary64 number nearest to it. -/
def lookAt (m : Object3D ℚ) (target : Vector3 ℚ) : Object3D ℚ :=
  let z := subVectors target m.position
  let z := if lengthSq z = 0 then { z with z := 1 } else z
  let z := normalize z
  let x := crossVectors m.up z
  let z :=
    if lengthSq x = 0 then
      normalize (if |m.up.z| = 1 then { z with x := add z.x (round (1 / 10000)) }
        else { z with z := add z.z (round (1 / 10000)) })
    else z
  { m with forward := z }

/-- One turn of the loop that fills `agents` (lines 72-85) in binary64, step for step as
`mkAgent`. -/
def mkAgent (r1 r2 r3 r4 : ℚ) : Agent ℚ :=
  { position := ⟨sub (mul r1 10) 5, 0, sub (mul r2 10) 5⟩
    velocity := ⟨sub r3 (1 / 2), 0, sub r4 (1 / 2)⟩
    mesh := Object3D.new }

/-- The body of the loop over the agents in `animate()` (lines 98-114) in binary64, step for
step as `animateAgent`. -/
def animateAgent (dt : ℚ) (d : Vector3 ℚ) (a : Agent ℚ) : Agent ℚ :=
  let dir : Vector3 ℚ := { d with y := 0 }
  let velocity := normalize (addScaledVector a.velocity dir (mul dt 3))
  let position := addScaledVector a.position velocity dt
  let position := if length position > 10 then Vector3.origin else position
  let mesh := lookAt a.mesh position
  let mesh := { mesh with position := position }
  { position := position, velocity := velocity, mesh := mesh }

end Binary64

/-! ## Lemmas on `Vector3` over the reals -/

namespace Vector3

lemma sumSq_nonneg (v : Vector3 ℝ) : 0 ≤ v.x * v.x + v.y * v.y + v.z * v.z := by
  nlinarith [mul_self_nonneg v.x, mul_self_nonneg v.y, mul_self_nonneg v.z]

lemma length_nonneg (v : Vector3 ℝ) : 0 ≤ v.length Real.sqrt :=
  Real.sqrt_nonneg _

lemma length_mul_self (v : Vector3 ℝ) :
    v.length Real.sqrt * v.length Real.sqrt = v.x * v.x + v.y * v.y + v.z * v.z :=
  Real.mul_self_sqrt v.sumSq_nonneg

lemma length_origin : (origin : Vector3 ℝ).length Real.sqrt = 0 := by
  simp [length, origin]

lemma length_eq_zero_iff (v : Vector3 ℝ) : v.length Real.sqrt = 0 ↔ v = origin := by
  constructor
  · intro h
    have hs : v.x * v.x + v.y * v.y + v.z * v.z = 0 := by
      rw [← v.length_mul_self, h, mul_zero]
    have hx : v.x = 0 := by
      nlinarith [mul_self_nonneg v.x, mul_self_nonneg v.y, mul_self_nonneg v.z]
    have hy : v.y = 0 := by
      nlinarith [mul_self_nonneg v.x, mul_self_nonneg v.y, mul_self_nonneg v.z]
    have hz : v.z = 0 := by
      nlinarith [mul_self_nonneg v.x, mul_self_nonneg v.y, mul_self_nonneg v.z]
    cases v
    simp only [origin, mk.injEq]
    exact ⟨hx, hy, hz⟩
  · rintro rfl
    exact length_origin

lemma normalize_origin : (origin : Vector3 ℝ).normalize Real.sqrt = origin := by
  simp [normalize, length_origin, divideScalar, multiplyScalar, origin]

lemma length_normalize (v : Vector3 ℝ) (h : v ≠ origin) :
    (v.normalize Real.sqrt).length Real.sqrt = 1 := by
  have hl : v.length Real.sqrt ≠ 0 := fun h0 => h ((length_eq_zero_iff v).1 h0)
  have hsq := v.length_mul_self
  have hin : v.x * (1 / v.length Real.sqrt) * (v.x * (1 / v.length Real.sqrt))
      + v.y * (1 / v.length Real.sqrt) * (v.y * (1 / v.length Real.sqrt))
      + v.z * (1 / v.length Real.sqrt) * (v.z * (1 / v.length Real.sqrt)) = 1 := by
    field_simp
    linarith
  simp only [normalize, if_neg hl, divideScalar, multiplyScalar]
  show Real.sqrt _ = 1
  rw [hin, Real.sqrt_one]

lemma normalize_of_length_eq_one (v : Vector3 ℝ) (h : v.length Real.sqrt = 1) :
    v.normalize Real.sqrt = v := by
  cases v
  simp [normalize, h, divideScalar, multiplyScalar]

lemma normalize_normalize (v : Vector3 ℝ) :
    (v.normalize Real.sqrt).normalize Real.sqrt = v.normalize Real.sqrt := by
  by_cases h : v = origin
  · subst h
    simp only [normalize_origin]
  · exact normalize_of_length_eq_one _ (length_normalize v h)

lemma addScaledVector_zero (v w : Vector3 ℝ) : v.addScaledVector w 0 = v := by
  cases v
  simp [addScaledVector]

end Vector3

/-! ## The steering step -/

open Vector3

lemma step_velocity (sqrt : ℝ → ℝ) (dt : ℝ) (d : Vector3 ℝ) (a : Agent ℝ) :
    (animateAgent sqrt dt d a).velocity = (accumulated dt d a).normalize sqrt := rfl

lemma step_position (sqrt : ℝ → ℝ) (dt : ℝ) (d : Vector3 ℝ) (a : Agent ℝ) :
    (animateAgent sqrt dt d a).position =
      if (a.position.addScaledVector (animateAgent sqrt dt d a).velocity dt).length sqrt > 10
      then origin
      else a.position.addScaledVector (animateAgent sqrt dt d a).velocity dt := rfl

lemma step_position_length (dt : ℝ) (d : Vector3 ℝ) (a : Agent ℝ) :
    (animateAgent Real.sqrt dt d a).position.length Real.sqrt ≤ 10 := by
  rw [step_position]
  split
  · rw [length_origin]
    norm_num
  · next h => exact not_lt.1 h

lemma run_append (sqrt : ℝ → ℝ) (fs gs : List (ℝ × Vector3 ℝ)) (a : Agent ℝ) :
    run sqrt (fs ++ gs) a = run sqrt gs (run sqrt fs a) := by
  induction fs generalizing a with
  | nil => rfl
  | cons f fs ih => exact ih _

lemma run_velocity_y (sqrt : ℝ → ℝ) (fs : List (ℝ × Vector3 ℝ)) (a : Agent ℝ)
    (h : a.velocity.y = 0) : (run sqrt fs a).velocity.y = 0 := by
  induction fs generalizing a with
  | nil => exact h
  | cons f fs ih =>
    apply ih
    simp [animateAgent, Vector3.normalize, divideScalar, multiplyScalar, addScaledVector, h]

/-- C1. Unit speed: whatever the frame delta `dt`, the agent and the sampled direction `d`,
if the vector `velocity + 3 * dt * d` accumulated at line 101 (with the `y` of `d` zeroed) is
not the zero vector, the velocity the steering step leaves has Euclidean length exactly `1`. -/
theorem animateAgent_velocity_length (dt : ℝ) (d : Vector3 ℝ) (a : Agent ℝ)
    (h : accumulated dt d a ≠ origin) :
    (animateAgent Real.sqrt dt d a).velocity.length Real.sqrt = 1 :=
  length_normalize _ h

/-- The unit-speed theorem at the frame delta `1 / 60`, the direction `(1, 0, 0)` and a freshly
constructed agent of velocity `(1 / 2, 0, 0)`. -/
theorem animateAgent_velocity_length_witness :
    accumulated (1 / 60 : ℝ) ⟨1, 0, 0⟩ (mkAgent (1 / 4) (3 / 4) 1 (1 / 2)) ≠ origin ∧
    (animateAgent Real.sqrt (1 / 60) ⟨1, 0, 0⟩
      (mkAgent (1 / 4) (3 / 4) 1 (1 / 2))).velocity.length Real.sqrt = 1 :=
  have h : accumulated (1 / 60 : ℝ) ⟨1, 0, 0⟩ (mkAgent (1 / 4) (3 / 4) 1 (1 / 2)) ≠ origin := by
    simp only [accumulated, mkAgent, addScaledVector, origin, ne_eq, mk.injEq]
    norm_num
  ⟨h, animateAgent_velocity_length _ _ _ h⟩

/-- C2. Planar velocity: the velocity an agent is constructed with has `y = 0`; the steering
step maps a velocity with `y = 0` to a velocity with `y = 0`, whatever `dt` and the sampled
direction; hence the velocity has `y = 0` after any number of steps from construction. -/
theorem velocity_y_eq_zero :
    (∀ r1 r2 r3 r4 : ℝ, (mkAgent r1 r2 r3 r4).velocity.y = 0) ∧
    (∀ (dt : ℝ) (d : Vector3 ℝ) (a : Agent ℝ), a.velocity.y = 0 →
      (animateAgent Real.sqrt dt d a).velocity.y = 0) ∧
    (∀ (frames : List (ℝ × Vector3 ℝ)) (r1 r2 r3 r4 : ℝ),
      (run Real.sqrt frames (mkAgent r1 r2 r3 r4)).velocity.y = 0) :=
  ⟨fun _ _ _ _ => rfl,
   fun dt d a h => run_velocity_y Real.sqrt [(dt, d)] a h,
   fun frames _ _ _ _ => run_velocity_y Real.sqrt frames _ rfl⟩

/-- The planar-velocity theorem at one step of an agent of velocity `(1, 0, 0)` with a sampled
direction that has a vertical component. -/
theorem velocity_y_eq_zero_witness :
    (animateAgent Real.sqrt (1 / 60) ⟨0, -1, 0⟩
      ⟨⟨1, 0, 2⟩, ⟨1, 0, 0⟩, Object3D.new⟩).velocity.y = 0 :=
  velocity_y_eq_zero.2.1 (1 / 60) ⟨0, -1, 0⟩ ⟨⟨1, 0, 2⟩, ⟨1, 0, 0⟩, Object3D.new⟩ rfl

/-- C3. Containment: after the steering step the position is at distance at most `10` from
the origin, whatever the prior state, `dt` and the sampled direction; so along any sequence of
steps from any start, the position is within `10` of the origin after every step (after the
first `n` frames, for every `n` from `1` to the number of frames). -/
theorem position_length_le_ten :
    (∀ (dt : ℝ) (d : Vector3 ℝ) (a : Agent ℝ),
      (animateAgent Real.sqrt dt d a).position.length Real.sqrt ≤ 10) ∧
    (∀ (frames : List (ℝ × Vector3 ℝ)) (a : Agent ℝ) (n : Nat), 0 < n → n ≤ frames.length →
      (run Real.sqrt (frames.take n) a).position.length Real.sqrt ≤ 10) := by
  refine ⟨step_position_length, fun frames a n hn hle => ?_⟩
  have hlen : (frames.take n).length = n := by simp [hle]
  rcases List.eq_nil_or_concat (frames.take n) with h | ⟨fs, f, h⟩
  · rw [h] at hlen
    simp at hlen
    omega
  · rw [h, List.concat_eq_append, run_append]
    exact step_position_length _ _ _

/-- The containment theorem after the second of three frames of `1 / 60`, from a start outside
the radius. -/
theorem position_length_le_ten_witness :
    (run Real.sqrt
      (([((1 / 60 : ℝ), (⟨1, 0, 0⟩ : Vector3 ℝ)), (1 / 60, ⟨0, -1, 0⟩),
        (1 / 60, ⟨0, 0, 1⟩)]).take 2)
      ⟨⟨20, 0, 0⟩, ⟨1, 0, 0⟩, Object3D.new⟩).position.length Real.sqrt ≤ 10 :=
  position_length_le_ten.2 _ _ 2 (by decide) (by decide)

/-! ## The reset, the zero vector and the frame delta `0` -/

lemma length_axis_x (x : ℝ) (h : 0 ≤ x) : (⟨x, 0, 0⟩ : Vector3 ℝ).length Real.sqrt = x := by
  simp only [length, mul_zero, add_zero]
  exact Real.sqrt_mul_self h

lemma step_zero (d : Vector3 ℝ) (a : Agent ℝ) :
    (animateAgent Real.sqrt 0 d a).velocity = a.velocity.normalize Real.sqrt ∧
    (animateAgent Real.sqrt 0 d a).position =
      if a.position.length Real.sqrt > 10 then origin else a.position := by
  have hv : (animateAgent Real.sqrt 0 d a).velocity = a.velocity.normalize Real.sqrt := by
    rw [step_velocity, accumulated, zero_mul, addScaledVector_zero]
  refine ⟨hv, ?_⟩
  rw [step_position, addScaledVector_zero]

lemma step_zero_position (d : Vector3 ℝ) (a : Agent ℝ)
    (h : a.position.length Real.sqrt ≤ 10) :
    (animateAgent Real.sqrt 0 d a).position = a.position := by
  rw [(step_zero d a).2, if_neg (not_lt.2 h)]

/-- C4, as the claim states it, fails: an agent at `(10.01, 0, 0)`, outside the radius, heading
inwards with velocity `(-1, 0, 0)`, stepped by `dt = 1 / 60` with the unit direction
`(0, -1, 0)`, ends at `(10.01 - 1 / 60, 0, 0)`, which is not the origin. -/
theorem reset_on_prior_excess_counterexample :
    (⟨1001 / 100, 0, 0⟩ : Vector3 ℝ).length Real.sqrt > 10 ∧
    (0 : ℝ) ≤ 1 / 60 ∧
    (⟨0, -1, 0⟩ : Vector3 ℝ).length Real.sqrt = 1 ∧
    (animateAgent Real.sqrt (1 / 60) ⟨0, -1, 0⟩
      ⟨⟨1001 / 100, 0, 0⟩, ⟨-1, 0, 0⟩, Object3D.new⟩).position
        = ⟨1001 / 100 - 1 / 60, 0, 0⟩ ∧
    (animateAgent Real.sqrt (1 / 60) ⟨0, -1, 0⟩
      ⟨⟨1001 / 100, 0, 0⟩, ⟨-1, 0, 0⟩, Object3D.new⟩).position ≠ origin := by
  have hv : (animateAgent Real.sqrt (1 / 60) ⟨0, -1, 0⟩
      ⟨⟨1001 / 100, 0, 0⟩, ⟨-1, 0, 0⟩, Object3D.new⟩).velocity = ⟨-1, 0, 0⟩ := by
    simp [animateAgent, Vector3.normalize, divideScalar, multiplyScalar, addScaledVector,
      length]
  have hp : (animateAgent Real.sqrt (1 / 60) ⟨0, -1, 0⟩
      ⟨⟨1001 / 100, 0, 0⟩, ⟨-1, 0, 0⟩, Object3D.new⟩).position
        = ⟨1001 / 100 - 1 / 60, 0, 0⟩ := by
    have e : (⟨1001 / 100, 0, 0⟩ : Vector3 ℝ).addScaledVector ⟨-1, 0, 0⟩ (1 / 60)
        = ⟨1001 / 100 - 1 / 60, 0, 0⟩ := by
      simp only [addScaledVector, mk.injEq]
      norm_num
    rw [step_position, hv, e, length_axis_x _ (by norm_num), if_neg (by norm_num)]
  refine ⟨?_, by norm_num, ?_, hp, ?_⟩
  · rw [length_axis_x _ (by norm_num)]
    norm_num
  · simp [length]
  · rw [hp]
    simp only [origin, ne_eq, mk.injEq]
    norm_num

/-- C4, amended. Reset on excess after the advance: if the position reached at line 104, the
prior position plus `dt` times the new velocity, is at distance more than `10` from the
origin, the position after the steering step is exactly the origin. -/
theorem animateAgent_position_reset (dt : ℝ) (d : Vector3 ℝ) (a : Agent ℝ)
    (h : (a.position.addScaledVector (animateAgent Real.sqrt dt d a).velocity dt).length
      Real.sqrt > 10) :
    (animateAgent Real.sqrt dt d a).position = origin := by
  rw [step_position, if_pos h]

/-- The reset at an agent at `(10, 0, 0)` heading outwards, stepped by `dt = 1`. -/
theorem animateAgent_position_reset_witness :
    ((⟨10, 0, 0⟩ : Vector3 ℝ).addScaledVector (animateAgent Real.sqrt 1 ⟨0, -1, 0⟩
      ⟨⟨10, 0, 0⟩, ⟨1, 0, 0⟩, Object3D.new⟩).velocity 1).length Real.sqrt > 10 ∧
    (animateAgent Real.sqrt 1 ⟨0, -1, 0⟩ ⟨⟨10, 0, 0⟩, ⟨1, 0, 0⟩, Object3D.new⟩).position
      = origin :=
  have hv : (animateAgent Real.sqrt 1 ⟨0, -1, 0⟩
      ⟨⟨10, 0, 0⟩, ⟨1, 0, 0⟩, Object3D.new⟩).velocity = ⟨1, 0, 0⟩ := by
    simp [animateAgent, Vector3.normalize, divideScalar, multiplyScalar, addScaledVector,
      length]
  have h : ((⟨10, 0, 0⟩ : Vector3 ℝ).addScaledVector (animateAgent Real.sqrt 1 ⟨0, -1, 0⟩
      ⟨⟨10, 0, 0⟩, ⟨1, 0, 0⟩, Object3D.new⟩).velocity 1).length Real.sqrt > 10 := by
    have e : (⟨10, 0, 0⟩ : Vector3 ℝ).addScaledVector ⟨1, 0, 0⟩ 1 = ⟨11, 0, 0⟩ := by
      simp only [addScaledVector, mk.injEq]
      norm_num
    rw [hv, e, length_axis_x _ (by norm_num)]
    norm_num
  ⟨h, animateAgent_position_reset 1 ⟨0, -1, 0⟩ ⟨⟨10, 0, 0⟩, ⟨1, 0, 0⟩, Object3D.new⟩ h⟩

/-- C5, as the claim states it, fails: an agent constructed with both velocity draws equal to
`1 / 2` has velocity zero; stepped with `dt = 0` the accumulated vector is zero, and the
velocity after the step is the zero vector, of length `0`, not a unit vector. -/
theorem zero_velocity_fallback_counterexample :
    accumulated (0 : ℝ) ⟨1, 0, 0⟩ (mkAgent 0 0 (1 / 2) (1 / 2)) = origin ∧
    (animateAgent Real.sqrt 0 ⟨1, 0, 0⟩ (mkAgent 0 0 (1 / 2) (1 / 2))).velocity = origin ∧
    (animateAgent Real.sqrt 0 ⟨1, 0, 0⟩
      (mkAgent 0 0 (1 / 2) (1 / 2))).velocity.length Real.sqrt ≠ 1 := by
  have hacc : accumulated (0 : ℝ) ⟨1, 0, 0⟩ (mkAgent 0 0 (1 / 2) (1 / 2)) = origin := by
    simp [accumulated, mkAgent, addScaledVector, origin]
  have hv : (animateAgent Real.sqrt 0 ⟨1, 0, 0⟩
      (mkAgent 0 0 (1 / 2) (1 / 2))).velocity = origin := by
    rw [step_velocity, hacc, normalize_origin]
  refine ⟨hacc, hv, ?_⟩
  rw [hv, length_origin]
  norm_num

/-- C5, amended. No fallback: if the vector `velocity + 3 * dt * d` accumulated at line 101 is
the zero vector, the velocity after the steering step is the zero vector (the normalisation
divides it by `1`). -/
theorem animateAgent_velocity_zero (dt : ℝ) (d : Vector3 ℝ) (a : Agent ℝ)
    (h : accumulated dt d a = origin) :
    (animateAgent Real.sqrt dt d a).velocity = origin := by
  rw [step_velocity, h, normalize_origin]

/-- The zero velocity at an agent of velocity `(-1, 0, 0)` pushed by `(1, 0, 0)` for
`dt = 1 / 3`. -/
theorem animateAgent_velocity_zero_witness :
    accumulated (1 / 3 : ℝ) ⟨1, 0, 0⟩ ⟨⟨1, 0, 1⟩, ⟨-1, 0, 0⟩, Object3D.new⟩ = origin ∧
    (animateAgent Real.sqrt (1 / 3) ⟨1, 0, 0⟩
      ⟨⟨1, 0, 1⟩, ⟨-1, 0, 0⟩, Object3D.new⟩).velocity = origin :=
  have h : accumulated (1 / 3 : ℝ) ⟨1, 0, 0⟩ ⟨⟨1, 0, 1⟩, ⟨-1, 0, 0⟩, Object3D.new⟩
      = origin := by
    simp only [accumulated, addScaledVector, origin, mk.injEq]
    norm_num
  ⟨h, animateAgent_velocity_zero _ _ _ h⟩

/-- C6, as the claim states it, fails: an agent at `(11, 0, 0)`, outside the radius, stepped
with `dt = 0`, is moved to the origin by the reset of lines 107-109. -/
theorem position_at_zero_delta_counterexample :
    (animateAgent Real.sqrt 0 ⟨1, 0, 0⟩ ⟨⟨11, 0, 0⟩, ⟨1, 0, 0⟩, Object3D.new⟩).position
      = origin ∧
    (animateAgent Real.sqrt 0 ⟨1, 0, 0⟩ ⟨⟨11, 0, 0⟩, ⟨1, 0, 0⟩, Object3D.new⟩).position
      ≠ (⟨11, 0, 0⟩ : Vector3 ℝ) := by
  have hp : (animateAgent Real.sqrt 0 ⟨1, 0, 0⟩
      ⟨⟨11, 0, 0⟩, ⟨1, 0, 0⟩, Object3D.new⟩).position = origin := by
    rw [(step_zero _ _).2, length_axis_x _ (by norm_num), if_pos (by norm_num)]
  refine ⟨hp, ?_⟩
  rw [hp]
  simp [origin]

/-- C6, amended. No positional change at `dt = 0` within the radius: for every agent whose
position is at distance at most `10` from the origin and every sampled direction, the
steering step with `dt = 0` leaves the position equal to the position before the step. -/
theorem animateAgent_zero_position (d : Vector3 ℝ) (a : Agent ℝ)
    (h : a.position.length Real.sqrt ≤ 10) :
    (animateAgent Real.sqrt 0 d a).position = a.position :=
  step_zero_position d a h

/-- The unchanged position at an agent at `(3, 0, 0)`. -/
theorem animateAgent_zero_position_witness :
    (⟨3, 0, 0⟩ : Vector3 ℝ).length Real.sqrt ≤ 10 ∧
    (animateAgent Real.sqrt 0 ⟨0, 0, 1⟩ ⟨⟨3, 0, 0⟩, ⟨0, 0, 1⟩, Object3D.new⟩).position
      = ⟨3, 0, 0⟩ :=
  have h : (⟨3, 0, 0⟩ : Vector3 ℝ).length Real.sqrt ≤ 10 := by
    rw [length_axis_x _ (by norm_num)]
    norm_num
  ⟨h, animateAgent_zero_position ⟨0, 0, 1⟩ ⟨⟨3, 0, 0⟩, ⟨0, 0, 1⟩, Object3D.new⟩ h⟩

/-- C10, as the claim states it, fails in the code's arithmetic: an agent built from the draws
`0.75`, `0.25`, `521 / 1024` and `552 / 1024` has velocity `(9 / 1024, 0, 40 / 1024)`; one step
with `dt = 0` leaves the velocity `(0.21951219512195122, 0, 0.975609756097561)`, of computed
length `1 - 2 ^ (-53)`, and a second step with `dt = 0` changes it to
`(0.21951219512195128, 0, 0.9756097560975612)`. -/
theorem zero_delta_idempotence_counterexample :
    Binary64.mkAgent (3 / 4) (1 / 4) (521 / 1024) (552 / 1024)
      = ⟨⟨5 / 2, 0, -5 / 2⟩, ⟨9 / 1024, 0, 40 / 1024⟩, Object3D.new⟩ ∧
    (Binary64.animateAgent 0 ⟨1, 0, 0⟩
      (Binary64.mkAgent (3 / 4) (1 / 4) (521 / 1024) (552 / 1024))).velocity
      = ⟨7908760321235993 / 36028797018963968, 0, 1098438933504999 / 1125899906842624⟩ ∧
    (Binary64.animateAgent 0 ⟨0, 0, 1⟩ (Binary64.animateAgent 0 ⟨1, 0, 0⟩
      (Binary64.mkAgent (3 / 4) (1 / 4) (521 / 1024) (552 / 1024)))).velocity
      = ⟨7908760321235995 / 36028797018963968, 0, 4393755734019997 / 4503599627370496⟩ ∧
    (Binary64.animateAgent 0 ⟨0, 0, 1⟩ (Binary64.animateAgent 0 ⟨1, 0, 0⟩
      (Binary64.mkAgent (3 / 4) (1 / 4) (521 / 1024) (552 / 1024)))).velocity
      ≠ (Binary64.animateAgent 0 ⟨1, 0, 0⟩
          (Binary64.mkAgent (3 / 4) (1 / 4) (521 / 1024) (552 / 1024))).velocity := by
  refine ⟨?_, ?_, ?_, ?_⟩ <;> decide!

/-- C10, amended. Idempotence at `dt = 0` on position and velocity, arithmetic over the reals:
for every agent and every two sampled directions `d1` and `d2`, the steering step with
`dt = 0` applied twice, with `d1` and then `d2`, leaves the position and velocity that one
step with `d1` leaves; and one step with `dt = 0` gives the same agent whatever the sampled
direction. -/
theorem animateAgent_zero_idempotent (d1 d2 : Vector3 ℝ) (a : Agent ℝ) :
    (animateAgent Real.sqrt 0 d2 (animateAgent Real.sqrt 0 d1 a)).position
      = (animateAgent Real.sqrt 0 d1 a).position ∧
    (animateAgent Real.sqrt 0 d2 (animateAgent Real.sqrt 0 d1 a)).velocity
      = (animateAgent Real.sqrt 0 d1 a).velocity ∧
    animateAgent Real.sqrt 0 d1 a = animateAgent Real.sqrt 0 d2 a := by
  refine ⟨?_, ?_, ?_⟩
  · exact step_zero_position d2 _ (step_position_length 0 d1 a)
  · rw [(step_zero d2 _).1, (step_zero d1 a).1, normalize_normalize]
  · simp [animateAgent, addScaledVector]

lemma sumSq_eq_one_of_length (v : Vector3 ℝ) (h : v.length Real.sqrt = 1) :
    v.x * v.x + v.y * v.y + v.z * v.z = 1 := by
  rw [← v.length_mul_self, h, mul_one]

lemma length_multiplyScalar (v : Vector3 ℝ) (s : ℝ) (h : v.length Real.sqrt = 1)
    (hs : 0 ≤ s) : (v.multiplyScalar s).length Real.sqrt = s := by
  have e : v.x * s * (v.x * s) + v.y * s * (v.y * s) + v.z * s * (v.z * s) = s * s := by
    have := sumSq_eq_one_of_length v h
    calc v.x * s * (v.x * s) + v.y * s * (v.y * s) + v.z * s * (v.z * s)
        = (v.x * v.x + v.y * v.y + v.z * v.z) * (s * s) := by ring
      _ = s * s := by rw [this, one_mul]
  simp only [multiplyScalar, length]
  rw [e, Real.sqrt_mul_self hs]

lemma normalize_multiplyScalar (v : Vector3 ℝ) (s : ℝ) (h : v.length Real.sqrt = 1)
    (hs : 0 < s) : (v.multiplyScalar s).normalize Real.sqrt = v := by
  have hl := length_multiplyScalar v s h hs.le
  have hne : (v.multiplyScalar s).length Real.sqrt ≠ 0 := by
    rw [hl]
    exact hs.ne'
  rw [Vector3.normalize, if_neg hne, hl]
  cases v
  simp only [divideScalar, multiplyScalar, mk.injEq]
  refine ⟨?_, ?_, ?_⟩ <;> field_simp

lemma lengthSq_multiplyScalar_ne_zero (v : Vector3 ℝ) (s : ℝ) (h : v.length Real.sqrt = 1)
    (hs : 0 < s) : (v.multiplyScalar s).lengthSq ≠ 0 := by
  have e : (v.multiplyScalar s).lengthSq = s * s := by
    have := sumSq_eq_one_of_length v h
    calc (v.multiplyScalar s).lengthSq
        = (v.x * v.x + v.y * v.y + v.z * v.z) * (s * s) := by
          simp only [lengthSq, multiplyScalar]
          ring
      _ = s * s := by rw [this, one_mul]
  rw [e]
  exact (mul_pos hs hs).ne'

lemma subVectors_addScaledVector (p v : Vector3 ℝ) (s : ℝ) :
    subVectors (p.addScaledVector v s) p = v.multiplyScalar s := by
  simp [subVectors, addScaledVector, multiplyScalar]

lemma crossVectors_up_lengthSq_ne_zero (v : Vector3 ℝ) (h : v.length Real.sqrt = 1)
    (hy : v.y = 0) : (crossVectors ⟨0, 1, 0⟩ v).lengthSq ≠ 0 := by
  have hs := sumSq_eq_one_of_length v h
  have e : (crossVectors ⟨0, 1, 0⟩ v).lengthSq = 1 := by
    simp only [crossVectors, lengthSq]
    rw [hy] at hs
    linarith
  rw [e]
  exact one_ne_zero

lemma lookAt_forward (m : Object3D ℝ) (target v : Vector3 ℝ) (s : ℝ)
    (hup : m.up = ⟨0, 1, 0⟩) (hv : v.length Real.sqrt = 1) (hy : v.y = 0) (hs : 0 < s)
    (hsub : subVectors target m.position = v.multiplyScalar s) :
    (m.lookAt Real.sqrt target).forward = v := by
  simp only [Object3D.lookAt]
  rw [hsub, if_neg (lengthSq_multiplyScalar_ne_zero v s hv hs),
    normalize_multiplyScalar v s hv hs, hup, if_neg (crossVectors_up_lengthSq_ne_zero v hv hy)]

/-- C9, as the claim states it, fails in two ways.  In the code's arithmetic the equalities
hold only up to rounding: an agent at `(1, 0, 2)`, its mesh there too, with velocity
`(0.6, 0, 0.8)`, stepped by `dt = 0.016666666666666666` with the direction `(0, -1, 0)`, keeps
its velocity and moves to `(1.01, 0, 2.013333333333333)`; the vector from the mesh to that
target is `(0.010000000000000009, 0, 0.013333333333333197)`, not `dt` times the velocity, and
the forward axis is `(0.6000000000000042, 0, 0.7999999999999967)`, not parallel to the
velocity.  And a velocity that is not planar can be vertical: an agent at the origin, its mesh
there too, with velocity `(0, 1, 0)`, stepped likewise, moves up, and `lookAt`, facing a
target along `up`, nudges the axis to `(0, 0.999999995, 0.00009999999950000001)`. -/
theorem faces_travel_counterexample :
    (Binary64.animateAgent (4803839602528529 / 288230376151711744) ⟨0, -1, 0⟩
      ⟨⟨1, 0, 2⟩, ⟨5404319552844595 / 9007199254740992, 0, 3602879701896397 / 4503599627370496⟩,
        ⟨⟨1, 0, 2⟩, ⟨0, 1, 0⟩, ⟨0, 0, 1⟩, []⟩⟩)
      = ⟨⟨4548635623644201 / 4503599627370496, 0, 4533623624886299 / 2251799813685248⟩,
        ⟨5404319552844595 / 9007199254740992, 0, 3602879701896397 / 4503599627370496⟩,
        ⟨⟨4548635623644201 / 4503599627370496, 0, 4533623624886299 / 2251799813685248⟩,
          ⟨0, 1, 0⟩,
          ⟨5404319552844633 / 9007199254740992, 0, 1801439850948191 / 2251799813685248⟩, []⟩⟩ ∧
    Binary64.subVectors
        ⟨4548635623644201 / 4503599627370496, 0, 4533623624886299 / 2251799813685248⟩ ⟨1, 0, 2⟩
      = ⟨45035996273705 / 4503599627370496, 0, 30023997515803 / 2251799813685248⟩ ∧
    Binary64.multiplyScalar
        ⟨5404319552844595 / 9007199254740992, 0, 3602879701896397 / 4503599627370496⟩
        (4803839602528529 / 288230376151711744)
      = ⟨5764607523034235 / 576460752303423488, 0, 7686143364045647 / 576460752303423488⟩ ∧
    (5404319552844633 / 9007199254740992 : ℚ) * (3602879701896397 / 4503599627370496)
      ≠ 1801439850948191 / 2251799813685248 * (5404319552844595 / 9007199254740992) ∧
    (Binary64.animateAgent (4803839602528529 / 288230376151711744) ⟨0, -1, 0⟩
      ⟨⟨0, 0, 0⟩, ⟨0, 1, 0⟩, ⟨⟨0, 0, 0⟩, ⟨0, 1, 0⟩, ⟨0, 0, 1⟩, []⟩⟩)
      = ⟨⟨0, 4803839602528529 / 288230376151711744, 0⟩, ⟨0, 1, 0⟩,
        ⟨⟨0, 4803839602528529 / 288230376151711744, 0⟩, ⟨0, 1, 0⟩,
          ⟨0, 2251799802426249 / 2251799813685248,
            7378697592590333 / 73786976294838206464⟩, []⟩⟩ := by
  refine ⟨?_, ?_, ?_, ?_, ?_⟩ <;> decide!

/-- C9, amended. Facing the direction of travel, arithmetic over the reals: the mesh the
steering step leaves is the prior mesh turned by `lookAt` towards the new position and only
then moved there.  Hence for every step with `dt > 0` from a state whose velocity is planar
and whose mesh has the default `up`, with the mesh at the agent's position, a non-zero
accumulated vector and no reset, the vector from the mesh's prior location to the look-at
target is `dt` times the new velocity, and the forward axis the mesh is given is the new
velocity itself. -/
theorem animateAgent_faces_travel (dt : ℝ) (d : Vector3 ℝ) (a : Agent ℝ)
    (hdt : 0 < dt) (hy : a.velocity.y = 0) (hup : a.mesh.up = ⟨0, 1, 0⟩)
    (hmesh : a.mesh.position = a.position)
    (hacc : accumulated dt d a ≠ origin)
    (hin : (a.position.addScaledVector (animateAgent Real.sqrt dt d a).velocity dt).length
      Real.sqrt ≤ 10) :
    (animateAgent Real.sqrt dt d a).mesh =
      { a.mesh.lookAt Real.sqrt (animateAgent Real.sqrt dt d a).position with
        position := (animateAgent Real.sqrt dt d a).position } ∧
    subVectors (animateAgent Real.sqrt dt d a).position a.mesh.position
      = (animateAgent Real.sqrt dt d a).velocity.multiplyScalar dt ∧
    (animateAgent Real.sqrt dt d a).mesh.forward = (animateAgent Real.sqrt dt d a).velocity := by
  have hy' : (animateAgent Real.sqrt dt d a).velocity.y = 0 :=
    run_velocity_y Real.sqrt [(dt, d)] a hy
  have hv : (animateAgent Real.sqrt dt d a).velocity.length Real.sqrt = 1 :=
    length_normalize _ hacc
  have hp : (animateAgent Real.sqrt dt d a).position
      = a.position.addScaledVector (animateAgent Real.sqrt dt d a).velocity dt := by
    rw [step_position, if_neg (not_lt.2 hin)]
  have hsub : subVectors (animateAgent Real.sqrt dt d a).position a.mesh.position
      = (animateAgent Real.sqrt dt d a).velocity.multiplyScalar dt := by
    rw [hmesh, hp, subVectors_addScaledVector]
  exact ⟨rfl, hsub, lookAt_forward a.mesh _ _ dt hup hv hy' hdt hsub⟩

/-- The facing theorem at a step of `dt = 1 / 60` of an agent at `(1, 0, 0)` heading along
`(1, 0, 0)`, its mesh there too and carrying a voice: the mesh ends facing `(1, 0, 0)`. -/
theorem animateAgent_faces_travel_witness :
    (animateAgent Real.sqrt (1 / 60) ⟨0, -1, 0⟩
      ⟨⟨1, 0, 0⟩, ⟨1, 0, 0⟩,
        ⟨⟨1, 0, 0⟩, ⟨0, 1, 0⟩, ⟨1, 0, 0⟩, [⟨some bell, 1, 1 / 5, 2, "HRTF"⟩]⟩⟩).mesh.forward
      = ⟨1, 0, 0⟩ := by
  have hv : (animateAgent Real.sqrt (1 / 60) ⟨0, -1, 0⟩
      ⟨⟨1, 0, 0⟩, ⟨1, 0, 0⟩,
        ⟨⟨1, 0, 0⟩, ⟨0, 1, 0⟩, ⟨1, 0, 0⟩, [⟨some bell, 1, 1 / 5, 2, "HRTF"⟩]⟩⟩).velocity
      = ⟨1, 0, 0⟩ := by
    simp [animateAgent, Vector3.normalize, divideScalar, multiplyScalar, addScaledVector,
      length]
  have hacc : accumulated (1 / 60 : ℝ) ⟨0, -1, 0⟩
      ⟨⟨1, 0, 0⟩, ⟨1, 0, 0⟩,
        ⟨⟨1, 0, 0⟩, ⟨0, 1, 0⟩, ⟨1, 0, 0⟩, [⟨some bell, 1, 1 / 5, 2, "HRTF"⟩]⟩⟩ ≠ origin := by
    simp [accumulated, addScaledVector, origin]
  have hin : ((⟨1, 0, 0⟩ : Vector3 ℝ).addScaledVector (animateAgent Real.sqrt (1 / 60)
      ⟨0, -1, 0⟩ ⟨⟨1, 0, 0⟩, ⟨1, 0, 0⟩,
        ⟨⟨1, 0, 0⟩, ⟨0, 1, 0⟩, ⟨1, 0, 0⟩, [⟨some bell, 1, 1 / 5, 2, "HRTF"⟩]⟩⟩).velocity
      (1 / 60)).length Real.sqrt ≤ 10 := by
    have e : (⟨1, 0, 0⟩ : Vector3 ℝ).addScaledVector ⟨1, 0, 0⟩ (1 / 60) = ⟨61 / 60, 0, 0⟩ := by
      simp only [addScaledVector, mk.injEq]
      norm_num
    rw [hv, e, length_axis_x _ (by norm_num)]
    norm_num
  rw [(animateAgent_faces_travel (1 / 60) ⟨0, -1, 0⟩
    ⟨⟨1, 0, 0⟩, ⟨1, 0, 0⟩,
      ⟨⟨1, 0, 0⟩, ⟨0, 1, 0⟩, ⟨1, 0, 0⟩, [⟨some bell, 1, 1 / 5, 2, "HRTF"⟩]⟩⟩
    (by norm_num) rfl rfl rfl hacc hin).2.2, hv]

section voices

variable {α : Type} {P : Type}

lemma any_name_map_set (ps : List (String × ℚ)) (name other : String) (value : ℚ) :
    (ps.map fun p => if p.1 == name then (name, value) else p).any (fun p => p.1 == other)
      = ps.any (fun p => p.1 == other) := by
  induction ps with
  | nil => rfl
  | cons p ps ih =>
    simp only [List.map_cons, List.any_cons, ih]
    by_cases h : p.1 = name
    · simp [h]
    · simp [h]

lemma setValue_ok (dev : Device) (name : String) (value : ℚ)
    (h : dev.parameters.any (fun p => p.1 == name) = true) :
    ∃ dev', dev.setValue name value = .ok dev' ∧
      ∀ other, dev'.parameters.any (fun p => p.1 == other)
        = dev.parameters.any (fun p => p.1 == other) := by
  refine ⟨⟨dev.parameters.map fun p => if p.1 == name then (name, value) else p⟩, ?_, ?_⟩
  · simp only [Device.setValue, h, if_true]
  · intro other
    exact any_name_map_set _ _ _ _

lemma attachVoice_error (createDevice : Nat → P → Except Error Device) (random : Nat → ℚ)
    (patcher : P) (i : Nat) (a : Agent α) (err : Error)
    (h : createDevice i patcher = .error err) :
    attachVoice createDevice random patcher i a = .error err := by
  simp only [attachVoice, h]
  rfl

lemma attachVoice_ok (createDevice : Nat → P → Except Error Device) (random : Nat → ℚ)
    (patcher : P) (i : Nat) (a : Agent α) (dev : Device)
    (h : createDevice i patcher = .ok dev) (hp : dev.hasParameters = true) :
    ∃ sound, attachVoice createDevice random patcher i a
      = .ok { a with mesh := a.mesh.add sound } := by
  simp only [Device.hasParameters, List.all_cons, List.all_nil, Bool.and_true,
    Bool.and_eq_true] at hp
  obtain ⟨h1, h2, h3, h4⟩ := hp
  obtain ⟨d1, e1, k1⟩ := setValue_ok dev "carrier" (random (4 * i)) h1
  obtain ⟨d2, e2, k2⟩ := setValue_ok d1 "ratio" (random (4 * i + 1)) (by rw [k1, h2])
  obtain ⟨d3, e3, k3⟩ := setValue_ok d2 "depth" (random (4 * i + 2)) (by rw [k2, k1, h3])
  obtain ⟨d4, e4, _⟩ := setValue_ok d3 "rate" (random (4 * i + 3)) (by rw [k3, k2, k1, h4])
  refine ⟨⟨some d4, 1, 1 / 5, 2, "HRTF"⟩, ?_⟩
  simp only [attachVoice, h]
  show (do
    let fmsound ← dev.setValue "carrier" (random (4 * i))
    _) = _
  rw [e1]
  show (do
    let fmsound ← d1.setValue "ratio" (random (4 * i + 1))
    _) = _
  rw [e2]
  show (do
    let fmsound ← d2.setValue "depth" (random (4 * i + 2))
    _) = _
  rw [e3]
  show (do
    let fmsound ← d3.setValue "rate" (random (4 * i + 3))
    _) = _
  rw [e4]
  rfl

end voices

section voices

variable {α : Type} {P : Type}

lemma attachVoices_abort (createDevice : Nat → P → Except Error Device) (random : Nat → ℚ)
    (patcher : P) (err : Error) (agents : List (Agent α)) :
    ∀ (i k : Nat), k < agents.length →
      createDevice (i + k) patcher = .error err →
      (∀ j, j < k → ∃ dev, createDevice (i + j) patcher = .ok dev ∧ dev.hasParameters = true) →
      (attachVoices createDevice random patcher i agents).result = .error err ∧
      (attachVoices createDevice random patcher i agents).calls = k + 1 ∧
      ((attachVoices createDevice random patcher i agents).agents.take k).map
          (fun a => a.mesh.children.length)
        = (agents.take k).map (fun a => a.mesh.children.length + 1) ∧
      (attachVoices createDevice random patcher i agents).agents.drop k = agents.drop k ∧
      voices (attachVoices createDevice random patcher i agents).agents = voices agents + k := by
  induction agents with
  | nil => intro i k hk; simp at hk
  | cons a as ih =>
    intro i k hk hfail hok
    cases k with
    | zero =>
      have e := attachVoice_error createDevice random patcher i a err hfail
      simp only [attachVoices, e]
      simp
    | succ k =>
      obtain ⟨dev, hdev, hpar⟩ := hok 0 (Nat.succ_pos k)
      obtain ⟨sound, e⟩ := attachVoice_ok createDevice random patcher i a dev hdev hpar
      have hk' : k < as.length := by simpa using hk
      have hfail' : createDevice (i + 1 + k) patcher = .error err := by
        rw [← hfail]
        congr 1
        omega
      have hok' : ∀ j, j < k →
          ∃ dev, createDevice (i + 1 + j) patcher = .ok dev ∧ dev.hasParameters = true := by
        intro j hj
        obtain ⟨dev', h1, h2⟩ := hok (j + 1) (Nat.succ_lt_succ hj)
        refine ⟨dev', ?_, h2⟩
        rw [← h1]
        congr 1
        omega
      obtain ⟨r1, r2, r3, r4, r5⟩ := ih (i + 1) k hk' hfail' hok'
      simp only [attachVoices, e]
      refine ⟨r1, by rw [r2], ?_, ?_, ?_⟩
      · simp only [List.take_succ_cons, List.map_cons, r3]
        simp [Object3D.add]
      · simpa using r4
      · simp only [voices, List.map_cons, List.sum_cons] at r5 ⊢
        rw [r5]
        simp only [Object3D.add, List.length_append, List.length_singleton]
        omega

end voices

/-- C7, as the claim states it, fails: with ten agents, a patch that loads, and voice creation
failing for the agent of index `3` and succeeding for every other, only the three agents
before it end with a voice, not nine; the agents after it are never processed, and the
function ends with the error of the failing call. -/
theorem failure_isolation_counterexample :
    tenAgents.length = 10 ∧
    (∀ i, i ≠ 3 → failsAt 3 i () = .ok bell) ∧
    failsAt 3 3 () = .error "createDevice failed" ∧
    (audiosetup (.ok ⟨200, .ok ()⟩) (failsAt 3) (fun _ => 1 / 2) tenAgents).agents.map
      (fun a => a.mesh.children.length) = [1, 1, 1, 0, 0, 0, 0, 0, 0, 0] ∧
    voices (audiosetup (.ok ⟨200, .ok ()⟩) (failsAt 3) (fun _ => 1 / 2) tenAgents).agents
      ≠ 9 ∧
    (audiosetup (.ok ⟨200, .ok ()⟩) (failsAt 3) (fun _ => 1 / 2) tenAgents).result
      = .error "createDevice failed" := by
  refine ⟨rfl, ?_, rfl, ?_, ?_, ?_⟩
  · intro i hi
    simp [failsAt, hi]
  · rfl
  · decide
  · rfl

/-- C7, amended. Abort at the first failure: when the patch loads and voice creation fails for
the agent of index `k`, having given a device with the four parameters for each agent before
it, the function ends with the error of that call after `k + 1` calls of `RNBO.createDevice`;
each of the `k` agents before index `k` has gained one child, and the agents from index `k`
on are left as they were. -/
theorem audiosetup_aborts_at_failure {α P : Type} (response : Response P) (patcher : P)
    (createDevice : Nat → P → Except Error Device) (random : Nat → ℚ)
    (agents : List (Agent α)) (k : Nat) (err : Error)
    (hjson : response.json = .ok patcher) (hk : k < agents.length)
    (hfail : createDevice k patcher = .error err)
    (hok : ∀ j, j < k → ∃ dev, createDevice j patcher = .ok dev ∧ dev.hasParameters = true) :
    (audiosetup (.ok response) createDevice random agents).result = .error err ∧
    (audiosetup (.ok response) createDevice random agents).calls = k + 1 ∧
    ((audiosetup (.ok response) createDevice random agents).agents.take k).map
        (fun a => a.mesh.children.length)
      = (agents.take k).map (fun a => a.mesh.children.length + 1) ∧
    (audiosetup (.ok response) createDevice random agents).agents.drop k = agents.drop k ∧
    voices (audiosetup (.ok response) createDevice random agents).agents
      = voices agents + k := by
  have e : audiosetup (.ok response) createDevice random agents
      = attachVoices createDevice random patcher 0 agents := by
    simp only [audiosetup, hjson]
  rw [e]
  exact attachVoices_abort createDevice random patcher err agents 0 k hk
    (by rw [Nat.zero_add]; exact hfail) (fun j hj => by rw [Nat.zero_add]; exact hok j hj)

/-- The abort at ten agents with voice creation failing for the agent of index `3`. -/
theorem audiosetup_aborts_at_failure_witness :
    (audiosetup (.ok ⟨200, .ok ()⟩) (failsAt 3) (fun _ => 1 / 2) tenAgents).calls = 4 ∧
    (audiosetup (.ok ⟨200, .ok ()⟩) (failsAt 3) (fun _ => 1 / 2) tenAgents).agents.drop 3
      = tenAgents.drop 3 :=
  have h := audiosetup_aborts_at_failure (⟨200, .ok ()⟩ : Response Unit) () (failsAt 3)
    (fun _ => 1 / 2) tenAgents 3 "createDevice failed" rfl (by decide) rfl
    (fun j hj => ⟨bell, by simp [failsAt, Nat.ne_of_lt hj], rfl⟩)
  ⟨h.2.1, h.2.2.2.1⟩

/-- C8, as the claim states it, fails: a response of status `404` whose body parses as JSON
does not make the function fail; `RNBO.createDevice` is called for each of the ten agents and,
where it succeeds, all ten end with a voice. -/
theorem load_failure_on_status_counterexample :
    (audiosetup (.ok ⟨404, .ok ()⟩) (fun _ _ => .ok bell) (fun _ => 1 / 2) tenAgents).result
      = .ok () ∧
    (audiosetup (.ok ⟨404, .ok ()⟩) (fun _ _ => .ok bell) (fun _ => 1 / 2) tenAgents).calls
      = 10 ∧
    voices (audiosetup (.ok ⟨404, .ok ()⟩) (fun _ _ => .ok bell) (fun _ => 1 / 2)
      tenAgents).agents = 10 :=
  ⟨rfl, rfl, by decide⟩

/-- C8, amended. Failure on a body that does not parse: for every response whose status is
outside `200..299` and whose body does not parse as JSON, the function ends with the error
thrown by the parse, makes no call of `RNBO.createDevice` and leaves every agent as it was. -/
theorem audiosetup_parse_failure {α P : Type} (response : Response P) (err : Error)
    (createDevice : Nat → P → Except Error Device) (random : Nat → ℚ)
    (agents : List (Agent α))
    (_hstatus : response.status < 200 ∨ 300 ≤ response.status)
    (hjson : response.json = .error err) :
    (audiosetup (.ok response) createDevice random agents).result = .error err ∧
    (audiosetup (.ok response) createDevice random agents).calls = 0 ∧
    (audiosetup (.ok response) createDevice random agents).agents = agents := by
  simp only [audiosetup, hjson, rethrow, errorContext]
  refine ⟨?_, trivial, trivial⟩
  split <;> rfl

/-- The parse failure at a response of status `404` with a body that is not JSON. -/
theorem audiosetup_parse_failure_witness :
    (audiosetup (.ok (⟨404, .error "SyntaxError: Unexpected token"⟩ : Response Unit))
      (fun _ _ => .ok bell) (fun _ => 1 / 2) tenAgents).agents = tenAgents :=
  (audiosetup_parse_failure ⟨404, .error "SyntaxError: Unexpected token"⟩
    "SyntaxError: Unexpected token" (fun _ _ => .ok bell) (fun _ => 1 / 2) tenAgents
    (Or.inr (by decide)) rfl).2.2

end Sound
